import Mathlib

set_option maxHeartbeats 1000000

/- Shallow embedding of the proxima-centauri reverse-proxy controller
   (src/src/lib.rs): the signed command envelope and its verifier, the
   tunnel registry mutated by process_command, and the per-tunnel control
   channel.  Machine integers (u16 ports, u64 timestamps, uuid bits) are
   Nat; the external p384 ECDSA scheme is idealised as a deterministic
   signature scheme in which a signature records the key and the exact
   message it was produced over (EUF-CMA idealisation); Rust panics
   (unwrap on errors, Duration subtraction underflow) are `none`. -/

/-- Decimal digit characters of a natural number, most significant first;
fuel-indexed structural recursion so the kernel evaluates it.  Embeds
Rust's u64::to_string digit loop. -/
def natDigitsAux : Nat → Nat → List Char
  | 0, _ => []
  | fuel + 1, n =>
    if n < 10 then [Nat.digitChar n]
    else natDigitsAux fuel (n / 10) ++ [Nat.digitChar (n % 10)]

/-- Decimal digits of n (fuel n+1 always suffices). -/
def natDigits (n : Nat) : List Char := natDigitsAux (n + 1) n

/-- Embeds Rust `u64::to_string` / the Display of unsigned integers. -/
def decimalStr (n : Nat) : String := ⟨natDigits n⟩

/-- Numeric value of a decimal digit character. -/
def digitVal (c : Char) : Nat := c.toNat - 48

/-- Value of a most-significant-first decimal digit list. -/
def valOfDigits (l : List Char) : Nat := l.foldl (fun a c => 10 * a + digitVal c) 0

/-- Hexadecimal digits of n, lowercase, most significant first, no padding
(embeds Rust LowerHex for u16 segments). -/
def hexDigitsAux : Nat → Nat → List Char
  | 0, _ => []
  | fuel + 1, n =>
    if n < 16 then [Nat.digitChar n]
    else hexDigitsAux fuel (n / 16) ++ [Nat.digitChar (n % 16)]

/-- Hexadecimal digits of n, lowercase, no padding. -/
def hexDigits (n : Nat) : List Char := hexDigitsAux (n + 1) n

/-- Exactly `width` lowercase hexadecimal digits of n, zero padded. -/
def hexPad : Nat → Nat → List Char
  | 0, _ => []
  | width + 1, n => hexPad width (n / 16) ++ [Nat.digitChar (n % 16)]

/-- An IP address: the data of Rust std::net::IpAddr. -/
inductive IpAddr where
  | v4 (a b c d : Nat)
  | v6 (s0 s1 s2 s3 s4 s5 s6 s7 : Nat)
deriving DecidableEq

/-- A socket address: IP plus TCP port (Rust std::net::SocketAddr). -/
structure SocketAddr where
  ip : IpAddr
  port : Nat
deriving DecidableEq

/-- The first longest run of zero segments, as (start, length), scanning
left to right and keeping a longer run only when strictly longer: embeds
the span search of Rust's Ipv6Addr Display. -/
def zeroRunAux : List Nat → Nat → Nat × Nat → Nat × Nat → Nat × Nat
  | [], _, longest, _ => longest
  | s :: rest, i, longest, current =>
    if s = 0 then
      let cur2 := if current.2 = 0 then (i, 1) else (current.1, current.2 + 1)
      let long2 := if cur2.2 > longest.2 then cur2 else longest
      zeroRunAux rest (i + 1) long2 cur2
    else
      zeroRunAux rest (i + 1) longest (0, 0)

/-- The zero span Rust's Ipv6Addr Display elides, when its length exceeds 1. -/
def longestZeroRun (segs : List Nat) : Option (Nat × Nat) :=
  let l := zeroRunAux segs 0 (0, 0) (0, 0)
  if l.2 > 1 then some l else none

/-- Hex segments joined with ':' (fmt_subslice of Rust's Ipv6Addr Display). -/
def joinColon (l : List Nat) : String :=
  String.intercalate ":" (l.map (fun s => ⟨hexDigits s⟩))

/-- Dotted decimal form of four octets (Rust Ipv4Addr Display). -/
def ipv4String (a b c d : Nat) : String :=
  decimalStr a ++ "." ++ decimalStr b ++ "." ++ decimalStr c ++ "." ++ decimalStr d

/-- Display of an IP address, embedding Rust std's Display for IpAddr:
dotted decimal for v4; for v6 the unspecified, loopback and ipv4-mapped
special cases, then zero-run compression with '::'. -/
def ipDisplay : IpAddr → String
  | .v4 a b c d => ipv4String a b c d
  | .v6 s0 s1 s2 s3 s4 s5 s6 s7 =>
    if s0 = 0 ∧ s1 = 0 ∧ s2 = 0 ∧ s3 = 0 ∧ s4 = 0 ∧ s5 = 0 ∧ s6 = 0 ∧ s7 = 0 then "::"
    else if s0 = 0 ∧ s1 = 0 ∧ s2 = 0 ∧ s3 = 0 ∧ s4 = 0 ∧ s5 = 0 ∧ s6 = 0 ∧ s7 = 1 then "::1"
    else if s0 = 0 ∧ s1 = 0 ∧ s2 = 0 ∧ s3 = 0 ∧ s4 = 0 ∧ s5 = 65535 then
      "::ffff:" ++ ipv4String (s6 / 256) (s6 % 256) (s7 / 256) (s7 % 256)
    else
      let segs := [s0, s1, s2, s3, s4, s5, s6, s7]
      match longestZeroRun segs with
      | some span => joinColon (segs.take span.1) ++ "::" ++ joinColon (segs.drop (span.1 + span.2))
      | none => joinColon segs

/-- Hyphenated lowercase hex display of a 128-bit UUID value (Rust uuid
crate Display, 8-4-4-4-12 groups of the big-endian value). -/
def uuidDisplay (n : Nat) : String :=
  ⟨hexPad 8 (n / 2 ^ 96) ++ '-' ::
    (hexPad 4 (n / 2 ^ 80 % 2 ^ 16) ++ '-' ::
      (hexPad 4 (n / 2 ^ 64 % 2 ^ 16) ++ '-' ::
        (hexPad 4 (n / 2 ^ 48 % 2 ^ 16) ++ '-' :: hexPad 12 (n % 2 ^ 48))))⟩

/-- Idealised ECDSA P-384 signature: records the signing key and the exact
message signed, so verification succeeds exactly for that key and message
(deterministic EUF-CMA idealisation of the external p384 crate). -/
structure Signature where
  key : Nat
  message : String
deriving DecidableEq

/-- Idealised signing: sk and vk of a pair are the same Nat identifier. -/
def sign (sk : Nat) (message : String) : Signature := ⟨sk, message⟩

/-- Idealised `VerifyingKey::verify(message, signature).is_ok()`. -/
def sigVerify (vk : Nat) (message : String) (s : Signature) : Bool :=
  s.key == vk && s.message == message

/-- The command variants of src/lib.rs (serde snake_case external tagging). -/
inductive Command where
  | create (incoming_port destination_port : Nat) (destination_ip : IpAddr) (id : Nat)
  | modify (destination_port : Nat) (destination_ip : IpAddr) (id : Nat)
  | delete (id : Nat)
  | status
deriving DecidableEq

/-- Embeds `serde_json::to_string(&self.command)`: externally tagged,
lower-snake-case variant key, declared field order, no whitespace. -/
def serializeCommand : Command → String
  | .create ip dp dip id =>
    "\x7b\"create\":\x7b\"incoming_port\":" ++ decimalStr ip ++
      ",\"destination_port\":" ++ decimalStr dp ++
      ",\"destination_ip\":\"" ++ ipDisplay dip ++
      "\",\"id\":\"" ++ uuidDisplay id ++ "\"\x7d\x7d"
  | .modify dp dip id =>
    "\x7b\"modify\":\x7b\"destination_port\":" ++ decimalStr dp ++
      ",\"destination_ip\":\"" ++ ipDisplay dip ++
      "\",\"id\":\"" ++ uuidDisplay id ++ "\"\x7d\x7d"
  | .delete id =>
    "\x7b\"delete\":\x7b\"id\":\"" ++ uuidDisplay id ++ "\"\x7d\x7d"
  | .status => "\"status\""

/-- The signed command envelope (struct ProxyCommand of src/lib.rs). -/
structure ProxyCommand where
  command : Command
  timestamp : Option Nat
  signature : Option Signature
deriving DecidableEq

/-- Embeds ProxyCommand::verify_signature.  `now` is the unix-seconds
clock read inside the function.  Result `none` is a Rust panic: for
now < timestamp, `now - timestamp` underflows Duration subtraction. -/
def ProxyCommand.verify_signature (pc : ProxyCommand) (verifying_key : Option Nat)
    (now : Nat) : Option Bool :=
  match verifying_key, pc.signature with
  | some key, some sig =>
    match pc.timestamp with
    | some ts =>
      let message := serializeCommand pc.command ++ decimalStr ts
      if !(sigVerify key message sig) then some false
      else if now + 30 < ts then some false
      else if now < ts then none
      else if now - ts ≤ 60 then some true
      else some false
    | none => some false
  | some _, none => some false
  | none, _ => some true

/-- A control message on the per-tunnel watch channel (src/lib.rs). -/
inductive ProxyControlMessage where
  | Open (destination : SocketAddr)
  | Close
deriving DecidableEq

/-- A tunnel record (struct ProxyState).  The watch Sender is modelled by
the list of values ever published on the channel, newest first (head =
value currently observable); `receiversAlive` records whether receivers
remain, since `watch::Sender::send` errs exactly when all are dropped. -/
structure ProxyState where
  incoming_port : Nat
  destination : SocketAddr
  control : List ProxyControlMessage
  receiversAlive : Bool
deriving DecidableEq

/-- The process-wide state (struct GlobalState): registry map, port set,
optional verifying key.  Map and set are association/element lists. -/
structure GlobalState where
  proxies : List (Nat × ProxyState)
  ports : List Nat
  verifying_key : Option Nat
deriving DecidableEq

/-- Embeds GlobalState::new: the key string is parsed by the external
`VerifyingKey::from_str` (passed in as `parse`); a failed parse is
silently dropped by `.ok()` inside `and_then`. -/
def GlobalState.new (parse : String → Option Nat) (verifying_key : Option String) :
    GlobalState :=
  { proxies := [], ports := [], verifying_key := verifying_key.bind parse }

/-- HashMap::get on the registry map. -/
def findProxy : List (Nat × ProxyState) → Nat → Option ProxyState
  | [], _ => none
  | e :: rest, id => if e.1 = id then some e.2 else findProxy rest id

/-- HashMap::get_mut followed by an in-place update of the entry. -/
def updateProxy (l : List (Nat × ProxyState)) (id : Nat) (f : ProxyState → ProxyState) :
    List (Nat × ProxyState) :=
  l.map (fun e => if e.1 = id then (e.1, f e.2) else e)

/-- The incoming ports referenced by the live tunnel records. -/
def portsOf (l : List (Nat × ProxyState)) : List Nat :=
  l.map (fun e => e.2.incoming_port)

/-- The destination of the most recent Open ever sent on a channel. -/
def lastOpenDest : List ProxyControlMessage → Option SocketAddr
  | [] => none
  | .Open d :: _ => some d
  | .Close :: rest => lastOpenDest rest

/-- The HTTP response payload (enum ProxyResponse). -/
inductive ProxyResponse where
  | Message (s : String)
  | Status (tunnels : List (Nat × Nat × SocketAddr))
deriving DecidableEq

/-- Embeds the `match payload.command` block of process_command: the four
registry operations.  `bindOk` is the outcome of the TcpListener bind
attempted by add_proxy during Create.  The first component is the HTTP
(status, body) reply, `none` when the handler panics: the bind `unwrap`,
and the `unwrap` of `control.send` when all receivers are gone.  The
second component is the global state as left behind (also at a panic). -/
def dispatchCommand (st : GlobalState) (c : Command) (bindOk : Bool) :
    Option (Nat × ProxyResponse) × GlobalState :=
  match c with
  | .create incoming_port destination_port destination_ip id =>
    if (findProxy st.proxies id).isSome then
      (some (409, .Message "Id already exists. Use the modify command instead."), st)
    else if incoming_port ∈ st.ports then
      (some (409, .Message ("The `incoming_port` already in use: " ++ decimalStr incoming_port)), st)
    else
      let addr : SocketAddr := ⟨destination_ip, destination_port⟩
      let st1 : GlobalState :=
        { st with
          ports := incoming_port :: st.ports,
          proxies := (id, ⟨incoming_port, addr, [.Open addr], bindOk⟩) :: st.proxies }
      if bindOk then
        (some (202, .Message ("Created tunnel " ++ uuidDisplay id ++ " on port " ++
          decimalStr incoming_port ++ " to use " ++ ipDisplay destination_ip ++ ":" ++
          decimalStr destination_port)), st1)
      else
        (none, st1)
  | .modify destination_port destination_ip id =>
    match findProxy st.proxies id with
    | some proxy =>
      let newDest : SocketAddr := ⟨destination_ip, destination_port⟩
      if proxy.receiversAlive then
        (some (202, .Message ("Changed tunnel " ++ uuidDisplay id ++ " to use " ++
           ipDisplay destination_ip ++ ":" ++ decimalStr destination_port)),
         { st with proxies := (updateProxy st.proxies id
             (fun p => { p with destination := newDest, control := .Open newDest :: p.control })) })
      else
        (none, { st with proxies := (updateProxy st.proxies id
            (fun p => { p with destination := newDest })) })
    | none => (some (404, .Message ("Id not found: " ++ uuidDisplay id)), st)
  | .delete id =>
    match findProxy st.proxies id with
    | some proxy =>
      let proxies2 := st.proxies.filter (fun e => decide (e.1 ≠ id))
      if proxy.receiversAlive then
        (some (202, .Message ("Deleted tunnel: " ++ uuidDisplay id)),
         { st with proxies := proxies2,
                   ports := st.ports.filter (fun q => decide (q ≠ proxy.incoming_port)) })
      else
        (none, { st with proxies := proxies2 })
    | none => (some (404, .Message ("Id not found: " ++ uuidDisplay id)), st)
  | .status =>
    (some (200, .Status (st.proxies.map (fun e => (e.1, e.2.incoming_port, e.2.destination)))), st)

/-- Embeds process_command: verify the envelope, reply 401 on a bad
signature, otherwise dispatch the registry operation.  `none` is a panic
propagating out of verification or dispatch. -/
def process_command (st : GlobalState) (payload : ProxyCommand) (now : Nat) (bindOk : Bool) :
    Option (Nat × ProxyResponse) × GlobalState :=
  match payload.verify_signature st.verifying_key now with
  | none => (none, st)
  | some false => (some (401, .Message "Invalid signature"), st)
  | some true => dispatchCommand st payload.command bindOk

/-- The state after a sequence of registry operations (each paired with
its bind outcome). -/
def runSteps (st : GlobalState) : List (Command × Bool) → GlobalState
  | [] => st
  | (c, b) :: rest => runSteps (dispatchCommand st c b).2 rest

/-- Every operation of the sequence completed (no handler panic). -/
def stepsOk (st : GlobalState) : List (Command × Bool) → Bool
  | [] => true
  | (c, b) :: rest =>
    (dispatchCommand st c b).1.isSome && stepsOk (dispatchCommand st c b).2 rest

/-- The state of a freshly started process with no verifying key. -/
def initialState : GlobalState := GlobalState.new (fun _ => none) none

/-- A decimal digit character decodes to the digit it encodes. -/
theorem digitVal_digitChar : ∀ d : Nat, d < 10 → digitVal (Nat.digitChar d) = d := by
  decide

/-- Appending one digit multiplies the decoded value by ten and adds it. -/
theorem valOfDigits_append (l : List Char) (c : Char) :
    valOfDigits (l ++ [c]) = 10 * valOfDigits l + digitVal c := by
  simp [valOfDigits, List.foldl_append]

/-- With enough fuel the digit list decodes back to the number. -/
theorem valOfDigits_natDigitsAux (fuel : Nat) :
    ∀ n : Nat, n < fuel → valOfDigits (natDigitsAux fuel n) = n := by
  induction fuel with
  | zero => intro n h; omega
  | succ f ih =>
    intro n h
    rw [natDigitsAux]
    split
    · rename_i h10
      simp [valOfDigits, digitVal_digitChar n h10]
    · rename_i h10
      rw [valOfDigits_append, ih (n / 10) (by omega), digitVal_digitChar (n % 10) (by omega)]
      omega

/-- The decimal digit list of a number decodes back to it. -/
theorem valOfDigits_natDigits (n : Nat) : valOfDigits (natDigits n) = n :=
  valOfDigits_natDigitsAux (n + 1) n (Nat.lt_succ_self n)

/-- Rust's decimal rendering of u64 is injective. -/
theorem decimalStr_injective (a b : Nat) (h : decimalStr a = decimalStr b) : a = b := by
  have hd : natDigits a = natDigits b := congrArg String.data h
  have := valOfDigits_natDigits a
  rw [hd, valOfDigits_natDigits b] at this
  omega

/-- Appending to a fixed string on the left is injective. -/
theorem string_append_left_cancel (s a b : String) (h : s ++ a = s ++ b) : a = b := by
  cases s with
  | mk sd =>
    cases a with
    | mk ad =>
      cases b with
      | mk bd =>
        have : sd ++ ad = sd ++ bd := congrArg String.data h
        exact congrArg String.mk (List.append_cancel_left this)

/-- Appending a fixed string on the right is injective. -/
theorem string_append_right_cancel (a b s : String) (h : a ++ s = b ++ s) : a = b := by
  cases a with
  | mk ad =>
    cases b with
    | mk bd =>
      cases s with
      | mk sd =>
        have : ad ++ sd = bd ++ sd := congrArg String.data h
        exact congrArg String.mk (List.append_cancel_right this)

/-- The message signed by the verifier: canonical serialization of the
command with the decimal timestamp appended. -/
def signedMessage (c : Command) (t : Nat) : String :=
  serializeCommand c ++ decimalStr t

/-- Distinct timestamps give distinct signed messages for one command. -/
theorem signedMessage_timestamp_injective (c : Command) (t t2 : Nat)
    (h : signedMessage c t = signedMessage c t2) : t = t2 :=
  decimalStr_injective t t2 (string_append_left_cancel _ _ _ h)

/-- Distinct serialized commands give distinct signed messages for one
timestamp. -/
theorem signedMessage_command_injective (c c2 : Command) (t : Nat)
    (h : signedMessage c t = signedMessage c2 t) : serializeCommand c = serializeCommand c2 :=
  string_append_right_cancel _ _ _ h

/-- A lookup misses exactly when no entry carries the id. -/
theorem findProxy_eq_none (l : List (Nat × ProxyState)) (id : Nat) :
    findProxy l id = none ↔ ∀ e ∈ l, e.1 ≠ id := by
  induction l with
  | nil => simp [findProxy]
  | cons e rest ih =>
    rw [findProxy]
    by_cases he : e.1 = id
    · simp [he]
    · simp [he, ih]

/-- A successful lookup returns an entry of the map. -/
theorem findProxy_mem (l : List (Nat × ProxyState)) (id : Nat) (ps : ProxyState)
    (h : findProxy l id = some ps) : (id, ps) ∈ l := by
  induction l with
  | nil => simp [findProxy] at h
  | cons e rest ih =>
    rw [findProxy] at h
    by_cases he : e.1 = id
    · rw [if_pos he] at h
      injection h with h2
      have hid : e = (id, ps) := by
        cases e
        simp_all
      rw [← hid]
      exact List.mem_cons_self _ _
    · rw [if_neg he] at h
      exact List.mem_cons_of_mem _ (ih h)
  

/-- Updating one id leaves the key column unchanged. -/
theorem keys_updateProxy (l : List (Nat × ProxyState)) (id : Nat) (f : ProxyState → ProxyState) :
    (updateProxy l id f).map Prod.fst = l.map Prod.fst := by
  induction l with
  | nil => rfl
  | cons e rest ih =>
    rw [updateProxy, List.map_cons, List.map_cons, List.map_cons]
    by_cases he : e.1 = id
    · rw [if_pos he]
      exact congrArg _ ih
    · rw [if_neg he]
      exact congrArg _ ih

/-- An update preserving each record's port leaves the port column
unchanged. -/
theorem portsOf_updateProxy (l : List (Nat × ProxyState)) (id : Nat) (f : ProxyState → ProxyState)
    (hf : ∀ p : ProxyState, (f p).incoming_port = p.incoming_port) :
    portsOf (updateProxy l id f) = portsOf l := by
  induction l with
  | nil => rfl
  | cons e rest ih =>
    rw [updateProxy, portsOf, List.map_cons, List.map_cons, portsOf, List.map_cons]
    by_cases he : e.1 = id
    · rw [if_pos he]
      rw [portsOf, updateProxy] at ih
      rw [ih, hf e.2]
      rfl
    · rw [if_neg he]
      rw [portsOf, updateProxy] at ih
      rw [ih]
      rfl

/-- Each entry after an update is an untouched entry of another id, or the
updated image of an entry carrying the id. -/
theorem mem_updateProxy (l : List (Nat × ProxyState)) (id : Nat) (f : ProxyState → ProxyState)
    (e2 : Nat × ProxyState) (h : e2 ∈ updateProxy l id f) :
    (e2 ∈ l ∧ e2.1 ≠ id) ∨ ∃ ps : ProxyState, (id, ps) ∈ l ∧ e2 = (id, f ps) := by
  rw [updateProxy] at h
  obtain ⟨e, hel, heq⟩ := List.mem_map.mp h
  by_cases he : e.1 = id
  · right
    refine ⟨e.2, ?_, ?_⟩
    · rw [← he]
      exact hel
    · rw [← heq, if_pos he, he]
  · left
    rw [← heq, if_neg he]
    exact ⟨hel, he⟩

/-- Looking up the updated id returns the updated record. -/
theorem findProxy_updateProxy (l : List (Nat × ProxyState)) (id : Nat) (f : ProxyState → ProxyState) :
    findProxy (updateProxy l id f) id = (findProxy l id).map f := by
  induction l with
  | nil => rfl
  | cons e rest ih =>
    rw [updateProxy, List.map_cons]
    by_cases he : e.1 = id
    · rw [if_pos he, findProxy, findProxy, if_pos he, if_pos he]
      rfl
    · rw [if_neg he, findProxy, findProxy, if_neg he, if_neg he]
      rw [updateProxy] at ih
      exact ih

/-- Filtering an id out makes its lookup miss. -/
theorem findProxy_filter_ne (l : List (Nat × ProxyState)) (id : Nat) :
    findProxy (l.filter (fun e => decide (e.1 ≠ id))) id = none := by
  rw [findProxy_eq_none]
  intro e he
  have := List.of_mem_filter he
  simpa using this


/-- Removing the one record of an id removes exactly its port from the
record ports, when keys and record ports are duplicate free. -/
theorem mem_portsOf_filter_ne (l : List (Nat × ProxyState)) (id : Nat) (ps : ProxyState)
    (hkeys : (l.map Prod.fst).Nodup) (hports : (portsOf l).Nodup)
    (hmem : (id, ps) ∈ l) (q : Nat) :
    q ∈ portsOf (l.filter (fun e => decide (e.1 ≠ id))) ↔
      q ∈ portsOf l ∧ q ≠ ps.incoming_port := by
  have hinjp := List.inj_on_of_nodup_map hports
  have hinjk := List.inj_on_of_nodup_map hkeys
  constructor
  · intro hq
    rw [portsOf, List.mem_map] at hq
    obtain ⟨e, hef, hpe⟩ := hq
    have hel := List.mem_of_mem_filter hef
    have hne : e.1 ≠ id := by simpa using List.of_mem_filter hef
    constructor
    · rw [portsOf, List.mem_map]
      exact ⟨e, hel, hpe⟩
    · intro hc
      have he2 : e = (id, ps) := hinjp hel hmem (by rw [hpe, hc])
      exact hne (by rw [he2])
  · intro hq
    obtain ⟨hq1, hne⟩ := hq
    rw [portsOf, List.mem_map] at hq1
    obtain ⟨e, hel, hpe⟩ := hq1
    rw [portsOf, List.mem_map]
    refine ⟨e, List.mem_filter.mpr ⟨hel, ?_⟩, hpe⟩
    simp only [decide_eq_true_eq]
    intro hc
    have he2 : e = (id, ps) := hinjk hel hmem (by simpa using hc)
    rw [he2] at hpe
    exact hne (by rw [← hpe])


/-- Create with a present id: Conflict, state untouched. -/
theorem dispatch_create_id_conflict (st : GlobalState) (p dp : Nat) (dip : IpAddr)
    (id : Nat) (b : Bool) (h : (findProxy st.proxies id).isSome = true) :
    dispatchCommand st (.create p dp dip id) b =
      (some (409, .Message "Id already exists. Use the modify command instead."), st) := by
  rw [dispatchCommand, if_pos h]

/-- Create with a fresh id but a reserved port: Conflict, state untouched. -/
theorem dispatch_create_port_conflict (st : GlobalState) (p dp : Nat) (dip : IpAddr)
    (id : Nat) (b : Bool) (h1 : findProxy st.proxies id = none) (h2 : p ∈ st.ports) :
    dispatchCommand st (.create p dp dip id) b =
      (some (409, .Message ("The `incoming_port` already in use: " ++ decimalStr p)), st) := by
  rw [dispatchCommand, if_neg (by rw [h1]; simp), if_pos h2]

/-- Create on the happy path: channel seeded with the initial Open, port
reserved, record inserted, 202 Accepted. -/
theorem dispatch_create_success (st : GlobalState) (p dp : Nat) (dip : IpAddr)
    (id : Nat) (h1 : findProxy st.proxies id = none) (h2 : p ∉ st.ports) :
    dispatchCommand st (.create p dp dip id) true =
      (some (202, .Message ("Created tunnel " ++ uuidDisplay id ++ " on port " ++
          decimalStr p ++ " to use " ++ ipDisplay dip ++ ":" ++ decimalStr dp)),
       { st with ports := p :: st.ports,
                 proxies := (id, ⟨p, ⟨dip, dp⟩, [.Open ⟨dip, dp⟩], true⟩) :: st.proxies }) := by
  rw [dispatchCommand, if_neg (by rw [h1]; simp), if_neg h2, if_pos rfl]

/-- Create whose TcpListener bind fails: the handler panics on unwrap with
the port reserved and the record inserted (no rollback). -/
theorem dispatch_create_bindfail (st : GlobalState) (p dp : Nat) (dip : IpAddr)
    (id : Nat) (h1 : findProxy st.proxies id = none) (h2 : p ∉ st.ports) :
    dispatchCommand st (.create p dp dip id) false =
      (none,
       { st with ports := p :: st.ports,
                 proxies := (id, ⟨p, ⟨dip, dp⟩, [.Open ⟨dip, dp⟩], false⟩) :: st.proxies }) := by
  rw [dispatchCommand, if_neg (by rw [h1]; simp), if_neg h2, if_neg (by simp)]

/-- Modify of an absent id: NotFound, state untouched. -/
theorem dispatch_modify_not_found (st : GlobalState) (dp : Nat) (dip : IpAddr)
    (id : Nat) (b : Bool) (h : findProxy st.proxies id = none) :
    dispatchCommand st (.modify dp dip id) b =
      (some (404, .Message ("Id not found: " ++ uuidDisplay id)), st) := by
  rw [dispatchCommand, h]

/-- Modify of a live record with live receivers: destination replaced,
Open broadcast, 202 Accepted. -/
theorem dispatch_modify_alive (st : GlobalState) (dp : Nat) (dip : IpAddr)
    (id : Nat) (b : Bool) (ps : ProxyState) (h : findProxy st.proxies id = some ps)
    (ha : ps.receiversAlive = true) :
    dispatchCommand st (.modify dp dip id) b =
      (some (202, .Message ("Changed tunnel " ++ uuidDisplay id ++ " to use " ++
          ipDisplay dip ++ ":" ++ decimalStr dp)),
       { st with proxies := (updateProxy st.proxies id (fun pr =>
           { pr with destination := ⟨dip, dp⟩,
                     control := .Open ⟨dip, dp⟩ :: pr.control })) }) := by
  rw [dispatchCommand, h]
  dsimp only
  rw [if_pos ha]

/-- Modify of a live record whose receivers are gone: the send unwrap
panics, after the destination field was already overwritten. -/
theorem dispatch_modify_dead (st : GlobalState) (dp : Nat) (dip : IpAddr)
    (id : Nat) (b : Bool) (ps : ProxyState) (h : findProxy st.proxies id = some ps)
    (ha : ps.receiversAlive = false) :
    dispatchCommand st (.modify dp dip id) b =
      (none, { st with proxies := (updateProxy st.proxies id (fun pr =>
          { pr with destination := ⟨dip, dp⟩ })) }) := by
  rw [dispatchCommand, h]
  dsimp only
  rw [if_neg (by rw [ha]; simp)]

/-- Delete of an absent id: NotFound, state untouched. -/
theorem dispatch_delete_not_found (st : GlobalState) (id : Nat) (b : Bool)
    (h : findProxy st.proxies id = none) :
    dispatchCommand st (.delete id) b =
      (some (404, .Message ("Id not found: " ++ uuidDisplay id)), st) := by
  rw [dispatchCommand, h]

/-- Delete of a live record with live receivers: record removed, Close
broadcast, port released, 202 Accepted. -/
theorem dispatch_delete_alive (st : GlobalState) (id : Nat) (b : Bool)
    (ps : ProxyState) (h : findProxy st.proxies id = some ps)
    (ha : ps.receiversAlive = true) :
    dispatchCommand st (.delete id) b =
      (some (202, .Message ("Deleted tunnel: " ++ uuidDisplay id)),
       { st with proxies := st.proxies.filter (fun e => decide (e.1 ≠ id)),
                 ports := st.ports.filter (fun q => decide (q ≠ ps.incoming_port)) }) := by
  rw [dispatchCommand, h]
  dsimp only
  rw [if_pos ha]

/-- Delete of a live record whose receivers are gone: the Close unwrap
panics after the record was removed but before the port is released. -/
theorem dispatch_delete_dead (st : GlobalState) (id : Nat) (b : Bool)
    (ps : ProxyState) (h : findProxy st.proxies id = some ps)
    (ha : ps.receiversAlive = false) :
    dispatchCommand st (.delete id) b =
      (none, { st with proxies := st.proxies.filter (fun e => decide (e.1 ≠ id)) }) := by
  rw [dispatchCommand, h]
  dsimp only
  rw [if_neg (by rw [ha]; simp)]

/-- Status: a snapshot of (id, incoming_port, destination), state untouched. -/
theorem dispatch_status (st : GlobalState) (b : Bool) :
    dispatchCommand st .status b =
      (some (200, .Status (st.proxies.map (fun e => (e.1, e.2.incoming_port, e.2.destination)))), st) :=
  rfl

/-- The registry invariants of spec section 3: the port set and the key
column are duplicate free, record ports are pairwise distinct, a port is
reserved iff a live record references it, and each record's destination
is the one of the most recent Open on its channel. -/
structure RegInv (st : GlobalState) : Prop where
  ports_nodup : st.ports.Nodup
  keys_nodup : (st.proxies.map Prod.fst).Nodup
  recports_nodup : (portsOf st.proxies).Nodup
  ports_iff : ∀ p : Nat, p ∈ st.ports ↔ p ∈ portsOf st.proxies
  dest_sync : ∀ e ∈ st.proxies, lastOpenDest e.2.control = some e.2.destination

/-- A completed registry operation preserves the invariants. -/
theorem regInv_dispatchCommand (st : GlobalState) (c : Command) (b : Bool)
    (hInv : RegInv st) (hOk : (dispatchCommand st c b).1.isSome = true) :
    RegInv (dispatchCommand st c b).2 := by
  cases c with
  | create p dp dip id =>
    by_cases hid : (findProxy st.proxies id).isSome = true
    · rw [dispatch_create_id_conflict st p dp dip id b hid]
      exact hInv
    · have h1 : findProxy st.proxies id = none := by
        cases hfp : findProxy st.proxies id
        · rfl
        · rw [hfp] at hid
          simp at hid
      by_cases hp : p ∈ st.ports
      · rw [dispatch_create_port_conflict st p dp dip id b h1 hp]
        exact hInv
      · have hb : b = true := by
          cases b
          · rw [dispatch_create_bindfail st p dp dip id h1 hp] at hOk
            simp at hOk
          · rfl
        subst hb
        rw [dispatch_create_success st p dp dip id h1 hp]
        have hidkeys : id ∉ st.proxies.map Prod.fst := by
          intro hc
          obtain ⟨e, hel, hfst⟩ := List.mem_map.mp hc
          exact (findProxy_eq_none st.proxies id).mp h1 e hel hfst
        have hpports : p ∉ portsOf st.proxies := fun hc => hp ((hInv.ports_iff p).mpr hc)
        constructor
        · exact List.nodup_cons.mpr ⟨hp, hInv.ports_nodup⟩
        · exact List.nodup_cons.mpr ⟨hidkeys, hInv.keys_nodup⟩
        · exact List.nodup_cons.mpr ⟨hpports, hInv.recports_nodup⟩
        · intro q
          rw [portsOf, List.map_cons]
          rw [List.mem_cons, List.mem_cons]
          rw [← portsOf]
          rw [hInv.ports_iff q]
        · intro e he
          rcases List.mem_cons.mp he with h1e | h1e
          · rw [h1e]
            rfl
          · exact hInv.dest_sync e h1e
  | modify dp dip id =>
    cases hfp : findProxy st.proxies id with
    | none =>
      rw [dispatch_modify_not_found st dp dip id b hfp]
      exact hInv
    | some ps =>
      cases ha : ps.receiversAlive with
      | false =>
        rw [dispatch_modify_dead st dp dip id b ps hfp ha] at hOk
        simp at hOk
      | true =>
        rw [dispatch_modify_alive st dp dip id b ps hfp ha]
        dsimp only
        have hfpres : ∀ pr : ProxyState,
            (ProxyState.mk pr.incoming_port ⟨dip, dp⟩ (ProxyControlMessage.Open ⟨dip, dp⟩ :: pr.control) pr.receiversAlive).incoming_port = pr.incoming_port :=
          fun pr => rfl
        constructor
        · exact hInv.ports_nodup
        · rw [keys_updateProxy]
          exact hInv.keys_nodup
        · rw [portsOf_updateProxy _ _ _ hfpres]
          exact hInv.recports_nodup
        · intro q
          rw [portsOf_updateProxy _ _ _ hfpres]
          exact hInv.ports_iff q
        · intro e he
          dsimp only at he
          rcases mem_updateProxy _ _ _ _ he with h1e | h1e
          · exact hInv.dest_sync e h1e.1
          · obtain ⟨pr, hmem2, heq⟩ := h1e
            rw [heq]
            rfl
  | delete id =>
    cases hfp : findProxy st.proxies id with
    | none =>
      rw [dispatch_delete_not_found st id b hfp]
      exact hInv
    | some ps =>
      cases ha : ps.receiversAlive with
      | false =>
        rw [dispatch_delete_dead st id b ps hfp ha] at hOk
        simp at hOk
      | true =>
        rw [dispatch_delete_alive st id b ps hfp ha]
        have hmem := findProxy_mem st.proxies id ps hfp
        constructor
        · exact List.Nodup.filter _ hInv.ports_nodup
        · exact List.Nodup.sublist (List.Sublist.map Prod.fst (List.filter_sublist _)) hInv.keys_nodup
        · exact List.Nodup.sublist (List.Sublist.map _ (List.filter_sublist _)) hInv.recports_nodup
        · intro q
          rw [mem_portsOf_filter_ne st.proxies id ps hInv.keys_nodup hInv.recports_nodup hmem q]
          rw [List.mem_filter]
          rw [← hInv.ports_iff q]
          simp
        · intro e he
          exact hInv.dest_sync e (List.mem_of_mem_filter he)
  | status =>
    rw [dispatch_status]
    exact hInv

/-- Completed sequences of registry operations preserve the invariants. -/
theorem regInv_runSteps (ops : List (Command × Bool)) : ∀ st : GlobalState, RegInv st →
    stepsOk st ops = true → RegInv (runSteps st ops) := by
  induction ops with
  | nil =>
    intro st h _
    exact h
  | cons cb rest ih =>
    intro st h hok
    obtain ⟨c, b⟩ := cb
    have hrun : runSteps st ((c, b) :: rest) = runSteps (dispatchCommand st c b).2 rest := rfl
    have hstep : stepsOk st ((c, b) :: rest) =
        ((dispatchCommand st c b).1.isSome && stepsOk (dispatchCommand st c b).2 rest) := rfl
    rw [hstep, Bool.and_eq_true] at hok
    rw [hrun]
    exact ih _ (regInv_dispatchCommand st c b h hok.1) hok.2

/-- The fresh registry satisfies the invariants. -/
theorem regInv_initialState : RegInv initialState := by
  constructor
  · exact List.nodup_nil
  · exact List.nodup_nil
  · exact List.nodup_nil
  · intro p
    exact Iff.rfl
  · intro e he
    exact absurd he (List.not_mem_nil e)

/-- An honest signature verifies. -/
theorem sigVerify_sign (k : Nat) (m : String) : sigVerify k m (sign k m) = true := by
  simp [sigVerify, sign]

/-- A signature verifies under k over m exactly when it is the honest one. -/
theorem sigVerify_eq_true_iff (k : Nat) (m : String) (sg : Signature) :
    sigVerify k m sg = true ↔ sg = sign k m := by
  cases sg with
  | mk ky ms =>
    rw [sigVerify, sign]
    rw [Bool.and_eq_true, beq_iff_eq, beq_iff_eq, Signature.mk.injEq]

/-- Unfolding of the verifier on a fully populated envelope. -/
theorem verify_signature_some (c : Command) (ts now k : Nat) (sg : Signature) :
    (ProxyCommand.mk c (some ts) (some sg)).verify_signature (some k) now =
      (if !(sigVerify k (signedMessage c ts) sg) then some false
       else if now + 30 < ts then some false
       else if now < ts then none
       else if now - ts ≤ 60 then some true
       else some false) := rfl

/-- The canonical serialization matches, byte for byte, the expectation of
the repository's serialize_proxy_command_create test (command portion). -/
theorem serializeCommand_matches_create_test :
    serializeCommand (.create 5555 6666 (.v4 127 0 0 1) 0x67e5504410b1426f9247bb680e5fe0c8) =
      "\x7b\"create\":\x7b\"incoming_port\":5555,\"destination_port\":6666,\"destination_ip\":\"127.0.0.1\",\"id\":\"67e55044-10b1-426f-9247-bb680e5fe0c8\"\x7d\x7d" := by
  rfl

/-- The canonical serialization matches, byte for byte, the expectation of
the repository's serialize_proxy_command_delete test (command portion). -/
theorem serializeCommand_matches_delete_test :
    serializeCommand (.delete 0x67e5504410b1426f9247bb680e5fe0c8) =
      "\x7b\"delete\":\x7b\"id\":\"67e55044-10b1-426f-9247-bb680e5fe0c8\"\x7d\x7d" := by
  rfl

/-- C1: for a configured key and an envelope whose signature is valid over
canonical(command) with the decimal timestamp appended (now = 1000), the
verifier returns false at timestamp 1031 (future beyond 30s) and 900 (older
than 60s), true at 940 and 1000 — but at timestamp 1001, i.e. now <
timestamp ≤ now + 30 where the claim requires true, the code panics
(`now - timestamp` underflows Duration subtraction), modelled as `none`. -/
theorem C1_freshness_window_evaluation :
    (ProxyCommand.mk .status (some 1031) (some (sign 5 (signedMessage .status 1031)))).verify_signature (some 5) 1000 = some false
    ∧ (ProxyCommand.mk .status (some 900) (some (sign 5 (signedMessage .status 900)))).verify_signature (some 5) 1000 = some false
    ∧ (ProxyCommand.mk .status (some 940) (some (sign 5 (signedMessage .status 940)))).verify_signature (some 5) 1000 = some true
    ∧ (ProxyCommand.mk .status (some 1000) (some (sign 5 (signedMessage .status 1000)))).verify_signature (some 5) 1000 = some true
    ∧ (ProxyCommand.mk .status (some 1001) (some (sign 5 (signedMessage .status 1001)))).verify_signature (some 5) 1000 = none := by
  refine ⟨rfl, rfl, rfl, rfl, rfl⟩

/-- C2 counterexample: an envelope with an honest signature over
canonical(Status) and timestamp 1040, with now = 1000, satisfies
|now − t| = 40 ≤ 60, yet verification returns false: the code rejects
every timestamp more than 30 seconds in the future, so the claimed window
|now − t| ≤ 60 does not hold as stated. -/
theorem C2_window_counterexample :
    (1040 - 1000 ≤ 60 ∧ 1000 ≤ 1040 + 60)
    ∧ sigVerify 5 (signedMessage .status 1040) (sign 5 (signedMessage .status 1040)) = true
    ∧ (ProxyCommand.mk .status (some 1040) (some (sign 5 (signedMessage .status 1040)))).verify_signature (some 5) 1000 = some false := by
  refine ⟨by omega, rfl, rfl⟩

/-- C2 (amended): for every key pair, command c and timestamp t in the
window now − 60 ≤ t ≤ now, an envelope carrying c, t and the key's
signature over canonical(c) with decimal t appended verifies as true; and
any change of the signature, of the signed command bytes, or of the
timestamp makes verification return false. -/
theorem C2_signed_window_and_mutations (k : Nat) (c : Command) (t now : Nat)
    (h1 : t ≤ now) (h2 : now - t ≤ 60) :
    (ProxyCommand.mk c (some t) (some (sign k (signedMessage c t)))).verify_signature (some k) now = some true
    ∧ (∀ sg : Signature, sg ≠ sign k (signedMessage c t) →
        (ProxyCommand.mk c (some t) (some sg)).verify_signature (some k) now = some false)
    ∧ (∀ c2 : Command, serializeCommand c2 ≠ serializeCommand c →
        (ProxyCommand.mk c2 (some t) (some (sign k (signedMessage c t)))).verify_signature (some k) now = some false)
    ∧ (∀ t2 : Nat, t2 ≠ t →
        (ProxyCommand.mk c (some t2) (some (sign k (signedMessage c t)))).verify_signature (some k) now = some false) := by
  refine ⟨?_, ?_, ?_, ?_⟩
  · rw [verify_signature_some, sigVerify_sign]
    rw [if_neg (by simp), if_neg (by omega), if_neg (by omega), if_pos h2]
  · intro sg hne
    have hsv : sigVerify k (signedMessage c t) sg = false := by
      rcases Bool.eq_false_or_eq_true (sigVerify k (signedMessage c t) sg) with hb | hb
      · exact absurd ((sigVerify_eq_true_iff _ _ _).mp hb) hne
      · exact hb
    rw [verify_signature_some, hsv]
    rw [if_pos (by simp)]
  · intro c2 hser
    have hsv : sigVerify k (signedMessage c2 t) (sign k (signedMessage c t)) = false := by
      rcases Bool.eq_false_or_eq_true (sigVerify k (signedMessage c2 t) (sign k (signedMessage c t))) with hb | hb
      · have hmsg : signedMessage c t = signedMessage c2 t := by
          have := (sigVerify_eq_true_iff _ _ _).mp hb
          rw [sign, sign, Signature.mk.injEq] at this
          exact this.2
        exact absurd (signedMessage_command_injective c c2 t hmsg).symm hser
      · exact hb
    rw [verify_signature_some, hsv]
    rw [if_pos (by simp)]
  · intro t2 hne
    have hsv : sigVerify k (signedMessage c t2) (sign k (signedMessage c t)) = false := by
      rcases Bool.eq_false_or_eq_true (sigVerify k (signedMessage c t2) (sign k (signedMessage c t))) with hb | hb
      · have hmsg : signedMessage c t = signedMessage c t2 := by
          have := (sigVerify_eq_true_iff _ _ _).mp hb
          rw [sign, sign, Signature.mk.injEq] at this
          exact this.2
        exact absurd (signedMessage_timestamp_injective c t t2 hmsg).symm hne
      · exact hb
    rw [verify_signature_some, hsv]
    rw [if_pos (by simp)]

/-- C2 witness: the amended statement at k = 7, c = Status, t = 950,
now = 1000, with a tampered signature, a different command (Delete) and a
shifted timestamp each rejected. -/
theorem C2_signed_window_and_mutations_witness :
    (ProxyCommand.mk .status (some 950) (some (sign 7 (signedMessage .status 950)))).verify_signature (some 7) 1000 = some true
    ∧ (ProxyCommand.mk .status (some 950) (some (Signature.mk 7 "tampered"))).verify_signature (some 7) 1000 = some false
    ∧ (ProxyCommand.mk (.delete 3) (some 950) (some (sign 7 (signedMessage .status 950)))).verify_signature (some 7) 1000 = some false
    ∧ (ProxyCommand.mk .status (some 951) (some (sign 7 (signedMessage .status 950)))).verify_signature (some 7) 1000 = some false :=
  ⟨(C2_signed_window_and_mutations 7 .status 950 1000 (by decide) (by decide)).1,
   (C2_signed_window_and_mutations 7 .status 950 1000 (by decide) (by decide)).2.1 _ (by decide),
   (C2_signed_window_and_mutations 7 .status 950 1000 (by decide) (by decide)).2.2.1 _ (by decide),
   (C2_signed_window_and_mutations 7 .status 950 1000 (by decide) (by decide)).2.2.2 _ (by decide)⟩

/-- C3: with no verifying key configured the verifier accepts every
envelope; with a key configured it rejects an envelope without signature,
and rejects one with a signature but no timestamp. -/
theorem C3_verify_gate (pc : ProxyCommand) (now k : Nat) :
    pc.verify_signature none now = some true
    ∧ (pc.signature = none → pc.verify_signature (some k) now = some false)
    ∧ (∀ sg : Signature, pc.signature = some sg → pc.timestamp = none →
        pc.verify_signature (some k) now = some false) := by
  obtain ⟨c, ts, s⟩ := pc
  refine ⟨?_, ?_, ?_⟩
  · cases s <;> rfl
  · intro h
    cases s with
    | none => rfl
    | some s2 => simp at h
  · intro sg hs ht
    cases s with
    | none => simp at hs
    | some s2 =>
      cases ts with
      | none => rfl
      | some t2 => simp at ht

/-- C3 witness: the three gate rules at concrete envelopes. -/
theorem C3_verify_gate_witness :
    (ProxyCommand.mk .status none none).verify_signature none 5 = some true
    ∧ (ProxyCommand.mk .status none none).verify_signature (some 9) 5 = some false
    ∧ (ProxyCommand.mk .status none (some (Signature.mk 9 "m"))).verify_signature (some 9) 5 = some false :=
  ⟨(C3_verify_gate (ProxyCommand.mk .status none none) 5 9).1,
   (C3_verify_gate (ProxyCommand.mk .status none none) 5 9).2.1 rfl,
   (C3_verify_gate (ProxyCommand.mk .status none (some (Signature.mk 9 "m"))) 5 9).2.2 _ rfl rfl⟩

/-- A registry holding one live tunnel: id 1 on port 15000 forwarding to
127.0.0.1:9000, with its listener (receivers) alive. -/
def sampleTunnelState : GlobalState :=
  { proxies := [(1, ⟨15000, ⟨.v4 127 0 0 1, 9000⟩, [.Open ⟨.v4 127 0 0 1, 9000⟩], true⟩)],
    ports := [15000],
    verifying_key := none }

/-- C4: Create with a present id fails with Conflict and changes nothing;
with a fresh id but reserved port it fails with Conflict and changes
nothing; otherwise (bind succeeding) it seeds a control channel with the
initial Open, reserves the port, inserts the record and returns 202. -/
theorem C4_create_semantics (st : GlobalState) (p dp : Nat) (dip : IpAddr)
    (id : Nat) (b : Bool) :
    ((findProxy st.proxies id).isSome = true →
      dispatchCommand st (.create p dp dip id) b =
        (some (409, .Message "Id already exists. Use the modify command instead."), st))
    ∧ (findProxy st.proxies id = none → p ∈ st.ports →
      dispatchCommand st (.create p dp dip id) b =
        (some (409, .Message ("The `incoming_port` already in use: " ++ decimalStr p)), st))
    ∧ (findProxy st.proxies id = none → p ∉ st.ports →
      dispatchCommand st (.create p dp dip id) true =
        (some (202, .Message ("Created tunnel " ++ uuidDisplay id ++ " on port " ++
            decimalStr p ++ " to use " ++ ipDisplay dip ++ ":" ++ decimalStr dp)),
         { st with ports := p :: st.ports,
                   proxies := (id, ⟨p, ⟨dip, dp⟩, [.Open ⟨dip, dp⟩], true⟩) :: st.proxies })) :=
  ⟨dispatch_create_id_conflict st p dp dip id b,
   dispatch_create_port_conflict st p dp dip id b,
   dispatch_create_success st p dp dip id⟩

/-- C4 witness: the three Create outcomes at concrete registries. -/
theorem C4_create_semantics_witness :
    dispatchCommand sampleTunnelState (.create 16000 9000 (.v4 127 0 0 1) 1) true =
      (some (409, .Message "Id already exists. Use the modify command instead."), sampleTunnelState)
    ∧ dispatchCommand sampleTunnelState (.create 15000 9001 (.v4 10 0 0 1) 2) true =
      (some (409, .Message ("The `incoming_port` already in use: " ++ decimalStr 15000)), sampleTunnelState)
    ∧ dispatchCommand initialState (.create 15000 9000 (.v4 127 0 0 1) 1) true =
      (some (202, .Message ("Created tunnel " ++ uuidDisplay 1 ++ " on port " ++
          decimalStr 15000 ++ " to use " ++ ipDisplay (.v4 127 0 0 1) ++ ":" ++ decimalStr 9000)),
       { initialState with
           ports := 15000 :: initialState.ports,
           proxies := (1, ⟨15000, ⟨.v4 127 0 0 1, 9000⟩, [.Open ⟨.v4 127 0 0 1, 9000⟩], true⟩) :: initialState.proxies }) :=
  ⟨(C4_create_semantics sampleTunnelState 16000 9000 (.v4 127 0 0 1) 1 true).1 (by decide),
   (C4_create_semantics sampleTunnelState 15000 9001 (.v4 10 0 0 1) 2 true).2.1 (by decide) (by decide),
   (C4_create_semantics initialState 15000 9000 (.v4 127 0 0 1) 1 true).2.2 (by decide) (by decide)⟩

/-- C5: the claim requires a failed listener bind during Create to be
surfaced as a 500 response with the reservation and record rolled back;
the code instead unwraps the bind error, so the handler panics (no HTTP
response at all) and both the reserved port and the inserted record
remain in the registry. -/
theorem C5_bind_failure_no_rollback :
    (dispatchCommand initialState (.create 5555 6666 (.v4 127 0 0 1) 1) false).1 = none
    ∧ (dispatchCommand initialState (.create 5555 6666 (.v4 127 0 0 1) 1) false).2.ports = [5555]
    ∧ findProxy (dispatchCommand initialState (.create 5555 6666 (.v4 127 0 0 1) 1) false).2.proxies 1 =
        some ⟨5555, ⟨.v4 127 0 0 1, 6666⟩, [.Open ⟨.v4 127 0 0 1, 6666⟩], false⟩ :=
  ⟨rfl, rfl, rfl⟩

/-- C6: after any sequence of completed registry operations from the
fresh registry (hence after each step of any such sequence, every prefix
being completed as well), a port is in the port set exactly when a live
tunnel record references it. -/
theorem C6_ports_match_records (ops : List (Command × Bool))
    (h : stepsOk initialState ops = true) (p : Nat) :
    p ∈ (runSteps initialState ops).ports ↔ p ∈ portsOf (runSteps initialState ops).proxies :=
  (regInv_runSteps ops initialState regInv_initialState h).ports_iff p

/-- A short completed workload: two creates, a modify, a delete. -/
def sampleOps : List (Command × Bool) :=
  [(.create 15000 9000 (.v4 127 0 0 1) 1, true),
   (.modify 9001 (.v4 127 0 0 1) 1, true),
   (.create 15001 9002 (.v4 10 0 0 1) 2, true),
   (.delete 2, true)]

/-- C6 witness: the port/record correspondence after the sample workload. -/
theorem C6_ports_match_records_witness :
    stepsOk initialState sampleOps = true
    ∧ (15000 ∈ (runSteps initialState sampleOps).ports ↔
        15000 ∈ portsOf (runSteps initialState sampleOps).proxies) :=
  ⟨by decide, C6_ports_match_records sampleOps (by decide) 15000⟩

/-- C7: Modify of an absent id returns NotFound and changes nothing;
Modify of a live record replaces its destination and broadcasts Open with
the new destination on its channel, returning 202; and along every
completed sequence from the fresh registry, each live record's
destination equals the destination of the most recent Open ever sent on
its control channel (seeded by Create's initial Open). -/
theorem C7_modify_semantics (st : GlobalState) (dp : Nat) (dip : IpAddr)
    (id : Nat) (b : Bool) :
    (findProxy st.proxies id = none →
      dispatchCommand st (.modify dp dip id) b =
        (some (404, .Message ("Id not found: " ++ uuidDisplay id)), st))
    ∧ (∀ ps : ProxyState, findProxy st.proxies id = some ps → ps.receiversAlive = true →
      findProxy (dispatchCommand st (.modify dp dip id) b).2.proxies id =
        some ⟨ps.incoming_port, ⟨dip, dp⟩, .Open ⟨dip, dp⟩ :: ps.control, ps.receiversAlive⟩
      ∧ (dispatchCommand st (.modify dp dip id) b).1 =
        some (202, .Message ("Changed tunnel " ++ uuidDisplay id ++ " to use " ++
          ipDisplay dip ++ ":" ++ decimalStr dp)))
    ∧ (∀ ops : List (Command × Bool), stepsOk initialState ops = true →
      ∀ e ∈ (runSteps initialState ops).proxies,
        lastOpenDest e.2.control = some e.2.destination) := by
  refine ⟨?_, ?_, ?_⟩
  · exact dispatch_modify_not_found st dp dip id b
  · intro ps hfp ha
    rw [dispatch_modify_alive st dp dip id b ps hfp ha]
    dsimp only
    constructor
    · rw [findProxy_updateProxy, hfp]
      rfl
    · rfl
  · intro ops h e he
    exact (regInv_runSteps ops initialState regInv_initialState h).dest_sync e he

/-- C7 witness: the Modify outcomes and the destination/Open agreement at
concrete registries. -/
theorem C7_modify_semantics_witness :
    dispatchCommand initialState (.modify 9001 (.v4 127 0 0 1) 1) true =
      (some (404, .Message ("Id not found: " ++ uuidDisplay 1)), initialState)
    ∧ findProxy (dispatchCommand sampleTunnelState (.modify 9001 (.v4 10 0 0 1) 1) true).2.proxies 1 =
        some ⟨15000, ⟨.v4 10 0 0 1, 9001⟩,
          [.Open ⟨.v4 10 0 0 1, 9001⟩, .Open ⟨.v4 127 0 0 1, 9000⟩], true⟩
    ∧ lastOpenDest (ProxyState.mk 15000 ⟨.v4 127 0 0 1, 9000⟩ [.Open ⟨.v4 127 0 0 1, 9000⟩] true).control =
        some (ProxyState.mk 15000 ⟨.v4 127 0 0 1, 9000⟩ [.Open ⟨.v4 127 0 0 1, 9000⟩] true).destination :=
  ⟨(C7_modify_semantics initialState 9001 (.v4 127 0 0 1) 1 true).1 rfl,
   ((C7_modify_semantics sampleTunnelState 9001 (.v4 10 0 0 1) 1 true).2.1
     ⟨15000, ⟨.v4 127 0 0 1, 9000⟩, [.Open ⟨.v4 127 0 0 1, 9000⟩], true⟩ (by decide) rfl).1,
   (C7_modify_semantics initialState 0 (.v4 0 0 0 0) 0 true).2.2
     [(.create 15000 9000 (.v4 127 0 0 1) 1, true)] (by decide)
     (1, ProxyState.mk 15000 ⟨.v4 127 0 0 1, 9000⟩ [.Open ⟨.v4 127 0 0 1, 9000⟩] true) (by decide)⟩

/-- C8: once a Delete of an id has succeeded (202: record removed, port
released, Close broadcast), a second Delete of the same id returns
NotFound and leaves the registry map and port set unchanged. -/
theorem C8_delete_idempotent (st st2 : GlobalState) (id : Nat) (b b2 : Bool)
    (r : Nat × ProxyResponse) (h : dispatchCommand st (.delete id) b = (some r, st2))
    (h202 : r.1 = 202) :
    dispatchCommand st2 (.delete id) b2 =
      (some (404, .Message ("Id not found: " ++ uuidDisplay id)), st2) := by
  cases hfp : findProxy st.proxies id with
  | none =>
    rw [dispatch_delete_not_found st id b hfp] at h
    rw [Prod.mk.injEq] at h
    injection h.1 with hr
    rw [← hr] at h202
    simp at h202
  | some ps =>
    cases ha : ps.receiversAlive with
    | false =>
      rw [dispatch_delete_dead st id b ps hfp ha] at h
      rw [Prod.mk.injEq] at h
      exact absurd h.1 (by simp)
    | true =>
      rw [dispatch_delete_alive st id b ps hfp ha] at h
      rw [Prod.mk.injEq] at h
      have hgone : findProxy st2.proxies id = none := by
        rw [← h.2]
        exact findProxy_filter_ne st.proxies id
      exact dispatch_delete_not_found st2 id b2 hgone

/-- C8 witness: deleting tunnel 1, then deleting it again, at the sample
registry. -/
theorem C8_delete_idempotent_witness :
    dispatchCommand ({ proxies := [], ports := [], verifying_key := none } : GlobalState) (.delete 1) false =
      (some (404, .Message ("Id not found: " ++ uuidDisplay 1)),
       ({ proxies := [], ports := [], verifying_key := none } : GlobalState)) :=
  C8_delete_idempotent sampleTunnelState { proxies := [], ports := [], verifying_key := none }
    1 true false (202, .Message ("Deleted tunnel: " ++ uuidDisplay 1)) (by decide) rfl

/-- The registry left behind by a Create whose listener bind failed: the
record and reserved port remain, with the record's channel receivers gone
(the watch Receiver was dropped before the spawn). -/
def deadChannelState : GlobalState :=
  (dispatchCommand initialState (.create 5555 6666 (.v4 127 0 0 1) 1) false).2

/-- C9 counterexample: a live tunnel record whose channel receivers are
all gone (reachable: the record a failed-bind Create leaves behind), on
which Modify and Delete both panic on the send unwrap (`none`), instead
of logging and returning their normal HTTP responses as claimed. -/
theorem C9_closed_channel_counterexample :
    (findProxy deadChannelState.proxies 1).isSome = true
    ∧ (dispatchCommand deadChannelState (.modify 7777 (.v4 10 0 0 1) 1) true).1 = none
    ∧ (dispatchCommand deadChannelState (.delete 1) true).1 = none :=
  ⟨rfl, rfl, rfl⟩

/-- C9 (amended): broadcasting Open or Close on a control channel whose
receivers are all gone is not tolerated: the send result is unwrapped, so
the Modify or Delete of such a live tunnel panics the request handler and
produces no HTTP response (nothing is logged). -/
theorem C9_closed_channel_panics (st : GlobalState) (dp : Nat) (dip : IpAddr)
    (id : Nat) (b b2 : Bool) (ps : ProxyState) (h : findProxy st.proxies id = some ps)
    (hdead : ps.receiversAlive = false) :
    (dispatchCommand st (.modify dp dip id) b).1 = none
    ∧ (dispatchCommand st (.delete id) b2).1 = none := by
  constructor
  · rw [dispatch_modify_dead st dp dip id b ps h hdead]
  · rw [dispatch_delete_dead st id b2 ps h hdead]

/-- C9 witness: the amended statement at the failed-bind registry. -/
theorem C9_closed_channel_panics_witness :
    (dispatchCommand deadChannelState (.modify 9001 (.v4 127 0 0 1) 1) true).1 = none
    ∧ (dispatchCommand deadChannelState (.delete 1) false).1 = none :=
  C9_closed_channel_panics deadChannelState 9001 (.v4 127 0 0 1) 1 true false
    ⟨5555, ⟨.v4 127 0 0 1, 6666⟩, [.Open ⟨.v4 127 0 0 1, 6666⟩], false⟩ (by decide) rfl

/-- C10: a configured key string that fails to parse as a P-384 verifying
key leaves GlobalState::new with no verifying key, indistinguishable from
passing no key at all, after which the verifier accepts every envelope —
signature checking is silently disabled rather than failing at startup. -/
theorem C10_bad_key_disables_checks (parse : String → Option Nat) (s : String)
    (h : parse s = none) :
    (GlobalState.new parse (some s)).verifying_key = none
    ∧ GlobalState.new parse (some s) = GlobalState.new parse none
    ∧ ∀ (pc : ProxyCommand) (now : Nat),
        pc.verify_signature (GlobalState.new parse (some s)).verifying_key now = some true := by
  refine ⟨h, congrArg (GlobalState.mk [] []) h, ?_⟩
  intro pc now
  have hk : (GlobalState.new parse (some s)).verifying_key = none := h
  rw [hk]
  obtain ⟨c, ts, sg⟩ := pc
  cases sg <;> rfl

/-- C10 witness: a parser rejecting every string, applied to a malformed
key, accepts an unsigned envelope. -/
theorem C10_bad_key_disables_checks_witness :
    (GlobalState.new (fun _ => none) (some "not a key")).verifying_key = none
    ∧ GlobalState.new (fun _ => none) (some "not a key") = GlobalState.new (fun _ => none) none
    ∧ (ProxyCommand.mk (.delete 1) none none).verify_signature
        (GlobalState.new (fun _ => none) (some "not a key")).verifying_key 99 = some true :=
  ⟨(C10_bad_key_disables_checks (fun _ => none) "not a key" rfl).1,
   (C10_bad_key_disables_checks (fun _ => none) "not a key" rfl).2.1,
   (C10_bad_key_disables_checks (fun _ => none) "not a key" rfl).2.2 _ 99⟩
